import Mathlib

/-!
Verification development for the phuket-property.com analytics functions.

Shallow embedding of the two Netlify serverless handlers:
  * netlify/functions/analytics.ts  — session/page-view ingestor
    (validateAndSanitizeData, hashValue, getCountryFromIP, POST upsert
    router, GET aggregation endpoint);
  * netlify/functions/pandalytics.ts — metrics ingestor, variants A and B
    (required-field validation, session upsert SQL with COALESCE
    semantics, single-table insert).

JavaScript values carried by untyped JSON payloads are modelled by `JVal`
(numbers as `Int`; the claims under study never distinguish fractional
values).  Effects are modelled by explicit state passing: the remote
store is a `DB` value, each executed SQL statement is recorded as a
`StoreOp`, and the geolocation lookup is a function parameter whose
invocations are counted.  The SHA-256 digest of `hashValue` is abstracted
as a function parameter `digestHex`; the rest of `hashValue` (salting and
truncation to 16 characters) is modelled from the source.
-/

/-- Model of an untyped JavaScript/JSON field value. -/
inductive JVal where
  | vNull
  | vUndef
  | vStr (s : String)
  | vNum (n : Int)
  | vBool (b : Bool)
  deriving DecidableEq

/-- JavaScript truthiness of a `JVal` (empty string, 0, false, null and
undefined are falsy). -/
def JVal.truthy : JVal → Bool
  | .vStr s => s ≠ ""
  | .vNum n => n ≠ 0
  | .vBool b => b
  | _ => false

/-- Model of JavaScript `s.substring(0, n)` (take the first `n`
characters). -/
def jsSubstring (s : String) (n : Nat) : String :=
  ⟨s.data.take n⟩

/-- Normalize a nullable string by JavaScript truthiness: `some ""`
becomes `none`.  Used to model conditions such as `if (x)` on a
`string | null` value. -/
def truthyOpt : Option String → Option String
  | some s => if s = "" then none else some s
  | none => none

/-- Model of JavaScript `a || d` where `a` is a nullable string and `d`
is a string default. -/
def jsOrStr (a : Option String) (d : String) : String :=
  match a with
  | some s => if s = "" then d else s
  | none => d

/-- Helper for `strIncludes`: does `needle` occur at the head of
`hay`? -/
def headMatches : List Char → List Char → Bool
  | [], _ => true
  | _ :: _, [] => false
  | c :: cs, d :: ds => c == d && headMatches cs ds

/-- Does `needle` occur contiguously anywhere inside `hay`? -/
def occursIn (needle : List Char) : List Char → Bool
  | [] => headMatches needle []
  | d :: ds => headMatches needle (d :: ds) || occursIn needle ds

/-- Model of JavaScript `s.includes(pat)`. -/
def strIncludes (s pat : String) : Bool :=
  occursIn pat.data s.data

/-- Value of a list of decimal digit characters. -/
def digitsToNat (cs : List Char) : Nat :=
  cs.foldl (fun a c => a * 10 + (c.toNat - 48)) 0

/-- Model of JavaScript `parseInt(s)` in the decimal case: skip leading
whitespace, read an optional sign and then a maximal run of decimal
digits; `none` models the `NaN` result when no digit is found.  (The
hexadecimal `0x` auto-radix of `parseInt` is not modelled; no claim
depends on it.) -/
def parseIntJS (s : String) : Option Int :=
  let cs := s.data.dropWhile (fun c => c.isWhitespace)
  let signAndRest : Int × List Char :=
    match cs with
    | '-' :: t => (-1, t)
    | '+' :: t => (1, t)
    | _ => (1, cs)
  let ds := signAndRest.2.takeWhile (fun c => c.isDigit)
  if ds.isEmpty then none
  else some (signAndRest.1 * (digitsToNat ds : Int))

/-! ## analytics.ts : input sanitizer and identity hasher -/

/-- Untyped POST body of the session/page-view ingestor, as produced by
`JSON.parse`: each field may hold any JavaScript value (absent fields are
`undefined`). -/
structure RawData where
  path : JVal := .vUndef
  referrer : JVal := .vUndef
  userAgent : JVal := .vUndef
  sessionId : JVal := .vUndef
  screenWidth : JVal := .vUndef
  screenHeight : JVal := .vUndef
  siteUrl : JVal := .vUndef
  deriving DecidableEq

/-- Output record of `validateAndSanitizeData`. -/
structure SanitizedData where
  path : Option String
  referrer : Option String
  userAgent : Option String
  sessionId : Option String
  screenWidth : Option Int
  screenHeight : Option Int
  siteUrl : Option String
  deriving DecidableEq

/-- One string field of the sanitizer: keep a string truncated to
`maxLen`, otherwise null. -/
def strField (v : JVal) (maxLen : Nat) : Option String :=
  match v with
  | .vStr s => some (jsSubstring s maxLen)
  | _ => none

/-- One numeric field of the sanitizer: keep a positive number,
otherwise null. -/
def posNumField (v : JVal) : Option Int :=
  match v with
  | .vNum n => if 0 < n then some n else none
  | _ => none

/-- Model of `validateAndSanitizeData` from analytics.ts. -/
def validateAndSanitizeData (data : RawData) : SanitizedData :=
  { path := strField data.path 500
    referrer := strField data.referrer 500
    userAgent := strField data.userAgent 1000
    sessionId := strField data.sessionId 100
    screenWidth := posNumField data.screenWidth
    screenHeight := posNumField data.screenHeight
    siteUrl := strField data.siteUrl 500 }

/-- Model of `hashValue` from analytics.ts: append the salt, digest, and
truncate the hex digest to 16 characters.  `digestHex` abstracts the
SHA-256 hex digest primitive. -/
def hashValue (digestHex : String → String) (value : String) (salt : String) : String :=
  jsSubstring (digestHex (value ++ salt)) 16

/-! ## analytics.ts : geolocation resolver -/

/-- Client-side timeout of the geolocation fetch, from
`setTimeout(() => controller.abort(), 5000)`. -/
def geoTimeoutMs : Nat := 5000

/-- Possible outcomes of the outbound geolocation fetch in
`getCountryFromIP`. -/
inductive GeoOutcome where
  | fetchError
  | timeout
  | okBadJson
  | notOk (status : Nat) (body : String)
  | ok (countryCode : Option String)
  deriving DecidableEq

/-- Model of `getCountryFromIP` from analytics.ts, as a function of the
fetch outcome: a successful response yields `data.countryCode || null`
(the empty string is coerced to null by `||`); every failure — network
error, abort on timeout, unparsable body, non-2xx status — falls through
to `return null`. -/
def getCountryFromIP : GeoOutcome → Option String
  | .ok cc =>
    match cc with
    | some c => if c = "" then none else some c
    | none => none
  | _ => none

/-! ## analytics.ts : store model and handler -/

/-- Row of the `sessions` table.  The INSERT statement in the source
lists the first six columns; `page_count`, `timestamp` and
`duration_seconds` are filled by database-side column defaults (the
UPDATE statement reads `timestamp` and writes the other two). -/
structure SessionRow where
  session_hash : String
  first_page : String
  last_page : String
  site_url : String
  user_agent_hash : Option String
  country_code : Option String
  page_count : Int
  timestamp : Nat
  duration_seconds : Int
  deriving DecidableEq

/-- Row of the `page_views` table.  `ts` is the database-side default
insertion timestamp used by the GET aggregation queries. -/
structure PageViewRow where
  path : String
  site_url : String
  referrer : Option String
  user_agent_hash : Option String
  country_code : Option String
  screen_width : Option Int
  screen_height : Option Int
  session_hash : Option String
  is_bounce : Int
  ts : Nat
  deriving DecidableEq

/-- State of the remote store reachable from analytics.ts. -/
structure DB where
  sessions : List SessionRow
  page_views : List PageViewRow
  deriving DecidableEq

/-- Inbound request to the analytics.ts handler.  `body = none` models a
request body that `JSON.parse` rejects. -/
structure Event where
  httpMethod : String
  ipNf : Option String
  ipForwardedFor : Option String
  forwardedHost : Option String
  qDays : Option String
  qType : Option String
  body : Option RawData := none

/-- One outbound SQL statement executed against the remote store, with
its argument values. -/
inductive StoreOp where
  | selectSession (sessionHash : String)
  | updateSession (lastPage : String) (country : Option String) (sessionHash : String)
  | insertSession (sessionHash firstPage lastPage siteUrl : String)
      (uaHash : Option String) (country : Option String)
  | insertPageView (path siteUrl : String) (referrer uaHash country : Option String)
      (w hgt : Option Int) (sessionHash : Option String) (isBounce : Int)
  | aggregate (qtype : String) (days : Option Int)
  deriving DecidableEq

/-- Is the statement an INSERT into `sessions`? -/
def StoreOp.isSessionInsert : StoreOp → Bool
  | .insertSession _ _ _ _ _ _ => true
  | _ => false

/-- Is the statement an INSERT into `page_views`? -/
def StoreOp.isPageViewInsert : StoreOp → Bool
  | .insertPageView _ _ _ _ _ _ _ _ _ => true
  | _ => false

/-- Result row of the `type=daily` aggregation query: `DATE(timestamp)`
is modelled as the day index `ts / 86400`. -/
structure DailyRow where
  date : Nat
  total_views : Nat
  unique_sessions : Nat
  deriving DecidableEq

/-- Result row of the `type=pages` aggregation query. -/
structure PagesRow where
  path : String
  site_url : String
  views : Nat
  unique_sessions : Nat
  bounce_rate_percent : ℚ
  deriving DecidableEq

/-- Response bodies producible by the analytics.ts handler. -/
inductive Body where
  | empty
  | success
  | disabled
  | ignored
  | pathRequired
  | trackError
  | fetchFailed
  | methodNotAllowed
  | dailyData (rows : List DailyRow)
  | pagesData (rows : List PagesRow)

/-- Result of one analytics.ts handler invocation: the HTTP response,
the new store state, the outbound SQL statements in order, and the
number of geolocation lookups performed. -/
structure HResult where
  statusCode : Nat
  headers : List (String × String)
  body : Body
  db : DB
  storeOps : List StoreOp
  geoCalls : Nat

/-- Response headers built at the top of the analytics.ts handler and
attached to every response. -/
def corsHeaders : List (String × String) :=
  [("Access-Control-Allow-Origin", "*"),
   ("Access-Control-Allow-Headers", "Content-Type"),
   ("Access-Control-Allow-Methods", "POST, GET, OPTIONS"),
   ("Content-Type", "application/json")]

/-- JSON text of the fixed response bodies (JSON.stringify of the object
literals in the source). -/
def renderBody : Body → String
  | .empty => ""
  | .success => "\x7b\"success\":true\x7d"
  | .disabled => "\x7b\"success\":true,\"message\":\"Analytics disabled\"\x7d"
  | .ignored => "\x7b\"ignored\":true\x7d"
  | .pathRequired => "\x7b\"error\":\"Path is required\"\x7d"
  | .methodNotAllowed => "\x7b\"error\":\"Method not allowed\"\x7d"
  | _ => ""

/-- Client IP resolution:
`event.headers["x-nf-client-connection-ip"] ||
 event.headers["x-forwarded-for"]?.split(",")[0] || null`. -/
def clientIP (ev : Event) : Option String :=
  match truthyOpt ev.ipNf with
  | some s => some s
  | none =>
    match ev.ipForwardedFor with
    | some f => truthyOpt (some ((f.splitOn ",").headD ""))
    | none => none

/-- Site URL resolution with header fallback:
`data.siteUrl || (event.headers["x-forwarded-host"] ? "https://" + host : null)`. -/
def resolveSiteUrl (d : SanitizedData) (ev : Event) : Option String :=
  match truthyOpt d.siteUrl with
  | some u => some u
  | none =>
    match truthyOpt ev.forwardedHost with
    | some h => some ("https://" ++ h)
    | none => none

/-- Local-development filter:
`siteUrl.includes("localhost") || siteUrl.includes("127.0.0.1")`. -/
def isLocal (u : String) : Bool :=
  strIncludes u "localhost" || strIncludes u "127.0.0.1"

/-- Country code used for the current beacon when the code performs a
lookup: `if (clientIP) countryCode = await getCountryFromIP(clientIP)`.
`geo` maps an IP to the result of `getCountryFromIP` for it. -/
def geoCountry (geo : String → Option String) (ev : Event) : Option String :=
  match clientIP ev with
  | some ip => geo ip
  | none => none

/-- Number of geolocation lookups issued by the branch guarded by
`if (clientIP)`. -/
def geoCallsFor (ev : Event) : Nat :=
  if (clientIP ev).isSome then 1 else 0

/-- User-agent fingerprint:
`data.userAgent ? hashValue(data.userAgent) : null`. -/
def uaHashOf (digestHex : String → String) (salt : String) (d : SanitizedData) : Option String :=
  (truthyOpt d.userAgent).map (fun s => hashValue digestHex s salt)

/-- Session fingerprint:
`data.sessionId ? hashValue(data.sessionId) : null`. -/
def sessionHashOf (digestHex : String → String) (salt : String) (d : SanitizedData) : Option String :=
  (truthyOpt d.sessionId).map (fun s => hashValue digestHex s salt)

/-- POST branch of the analytics.ts handler, after a successful
`JSON.parse` of the request body.  The store is assumed to answer each
statement successfully (a store failure is the 500 catch-all branch of
the source and executes no further statement). -/
def handlePost (digestHex : String → String) (salt : String) (geo : String → Option String)
    (now : Nat) (ev : Event) (db : DB) (raw : RawData) : HResult :=
  let data := validateAndSanitizeData raw
  match truthyOpt data.path with
  | none => ⟨400, corsHeaders, .pathRequired, db, [], 0⟩
  | some p =>
    match resolveSiteUrl data ev with
    | none => ⟨200, corsHeaders, .ignored, db, [], 0⟩
    | some u =>
      if isLocal u then ⟨200, corsHeaders, .ignored, db, [], 0⟩
      else
        let uaHash := uaHashOf digestHex salt data
        match sessionHashOf digestHex salt data with
        | some h =>
          match db.sessions.find? (fun r => r.session_hash == h) with
          | some row =>
            match truthyOpt row.country_code with
            | some c =>
              ⟨200, corsHeaders, .success,
               ⟨db.sessions,
                db.page_views ++
                  [⟨p, u, data.referrer, uaHash, some c, data.screenWidth,
                    data.screenHeight, some h, 0, now⟩]⟩,
               [.selectSession h,
                .insertPageView p u data.referrer uaHash (some c) data.screenWidth
                  data.screenHeight (some h) 0],
               0⟩
            | none =>
              let country := geoCountry geo ev
              ⟨200, corsHeaders, .success,
               ⟨db.sessions.map (fun r =>
                  if r.session_hash == h then
                    { r with
                      last_page := p
                      page_count := r.page_count + 1
                      duration_seconds := (now : Int) - (r.timestamp : Int)
                      country_code := country }
                  else r),
                db.page_views ++
                  [⟨p, u, data.referrer, uaHash, country, data.screenWidth,
                    data.screenHeight, some h, 0, now⟩]⟩,
               [.selectSession h,
                .updateSession p country h,
                .insertPageView p u data.referrer uaHash country data.screenWidth
                  data.screenHeight (some h) 0],
               geoCallsFor ev⟩
          | none =>
            let country := geoCountry geo ev
            ⟨200, corsHeaders, .success,
             ⟨db.sessions ++ [⟨h, p, p, u, uaHash, country, 1, now, 0⟩],
              db.page_views ++
                [⟨p, u, data.referrer, uaHash, country, data.screenWidth,
                  data.screenHeight, some h, 0, now⟩]⟩,
             [.selectSession h,
              .insertSession h p p u uaHash country,
              .insertPageView p u data.referrer uaHash country data.screenWidth
                data.screenHeight (some h) 0],
             geoCallsFor ev⟩
        | none =>
          let country := geoCountry geo ev
          ⟨200, corsHeaders, .success,
           ⟨db.sessions,
            db.page_views ++
              [⟨p, u, data.referrer, uaHash, country, data.screenWidth,
                data.screenHeight, none, 0, now⟩]⟩,
           [.insertPageView p u data.referrer uaHash country data.screenWidth
              data.screenHeight none 0],
           geoCallsFor ev⟩

/-- Lookback window of the GET endpoint:
`Math.min(Math.max(parseInt(queryParams.days || "30"), 1), 365)`.
`none` models the `NaN` produced when `parseInt` fails, which
`Math.max`/`Math.min` propagate unchanged. -/
def computeDays (q : Option String) : Option Int :=
  match parseIntJS (jsOrStr q "30") with
  | none => none
  | some n => some (min (max n 1) 365)

/-- Start of the aggregation window:
`timestamp >= datetime('now', '-' || days || ' days')`. -/
def windowStart (now : Nat) (w : Int) : Int :=
  (now : Int) - w * 86400

/-- Is a page-view row inside the lookback window? -/
def inWindow (now : Nat) (w : Int) (r : PageViewRow) : Bool :=
  windowStart now w ≤ (r.ts : Int)

/-- Day index of a page-view row, modelling `DATE(timestamp)`. -/
def dayOf (r : PageViewRow) : Nat := r.ts / 86400

/-- `COUNT(DISTINCT session_hash)`: distinct non-null session hashes. -/
def uniqueSessions (rows : List PageViewRow) : Nat :=
  ((rows.filterMap (fun r => r.session_hash)).dedup).length

/-- `ROUND(x, 2)` of SQLite on a rational value. -/
def round2 (x : ℚ) : ℚ :=
  ((round (x * 100) : ℤ) : ℚ) / 100

/-- `ROUND(AVG(CAST(is_bounce AS REAL)) * 100, 2)` over one group. -/
def bounceRatePct (g : List PageViewRow) : ℚ :=
  round2 ((g.map (fun r => (r.is_bounce : ℚ))).sum / (g.length : ℚ) * 100)

/-- Descending-date order of the `type=daily` report (`ORDER BY date
DESC`). -/
def dailyGE (a b : DailyRow) : Prop := b.date ≤ a.date

instance : DecidableRel dailyGE := fun a b => Nat.decLe b.date a.date

instance : IsTotal DailyRow dailyGE := ⟨fun a b => Nat.le_total b.date a.date⟩

instance : IsTrans DailyRow dailyGE := ⟨fun _ _ _ h1 h2 => Nat.le_trans h2 h1⟩

/-- Descending-views order of the `type=pages` report (`ORDER BY views
DESC`). -/
def viewsGE (a b : PagesRow) : Prop := b.views ≤ a.views

instance : DecidableRel viewsGE := fun a b => Nat.decLe b.views a.views

instance : IsTotal PagesRow viewsGE := ⟨fun a b => Nat.le_total b.views a.views⟩

instance : IsTrans PagesRow viewsGE := ⟨fun _ _ _ h1 h2 => Nat.le_trans h2 h1⟩

/-- The `type=daily` aggregation: per-day total views and distinct
sessions over the window, ordered by date descending. -/
def dailyReport (db : DB) (now : Nat) (w : Int) : List DailyRow :=
  let rows := db.page_views.filter (inWindow now w)
  let keys := (rows.map dayOf).dedup
  List.insertionSort dailyGE
    (keys.map (fun d =>
      let g := rows.filter (fun r => dayOf r == d)
      ⟨d, g.length, uniqueSessions g⟩))

/-- Group of a `type=pages` key inside the window. -/
def pagesGroup (rows : List PageViewRow) (k : String × String) : List PageViewRow :=
  rows.filter (fun r => r.path == k.1 && r.site_url == k.2)

/-- One result row of the `type=pages` aggregation. -/
def pagesRowFor (rows : List PageViewRow) (k : String × String) : PagesRow :=
  ⟨k.1, k.2, (pagesGroup rows k).length, uniqueSessions (pagesGroup rows k),
   bounceRatePct (pagesGroup rows k)⟩

/-- The `type=pages` aggregation: per-(path, site_url) views, distinct
sessions and bounce rate over the window, ordered by views
descending. -/
def pagesReport (db : DB) (now : Nat) (w : Int) : List PagesRow :=
  let rows := db.page_views.filter (inWindow now w)
  let keys := (rows.map (fun r => (r.path, r.site_url))).dedup
  List.insertionSort viewsGE (keys.map (pagesRowFor rows))

/-- GET branch of the analytics.ts handler.  When the window is `NaN`
(`days = none`) the bound SQL parameter is not a number; the datetime
comparison then matches no row, modelled by an empty result. -/
def handleGet (now : Nat) (ev : Event) (db : DB) : HResult :=
  let days := computeDays ev.qDays
  let qtype := jsOrStr ev.qType "pages"
  let rowsBody :=
    if qtype = "daily" then
      Body.dailyData (match days with | some w => dailyReport db now w | none => [])
    else
      Body.pagesData (match days with | some w => pagesReport db now w | none => [])
  ⟨200, corsHeaders, rowsBody, db, [.aggregate qtype days], 0⟩

/-- Model of the analytics.ts handler.  `configured` models whether the
module-level Turso client was initialized (both environment variables
present); `digestHex`, `geo` and `now` abstract the crypto digest, the
geolocation service and the clock. -/
def handler (digestHex : String → String) (salt : String) (geo : String → Option String)
    (now : Nat) (configured : Bool) (ev : Event) (db : DB) : HResult :=
  if ev.httpMethod = "OPTIONS" then
    ⟨200, corsHeaders, .empty, db, [], 0⟩
  else if configured = false then
    ⟨200, corsHeaders, .disabled, db, [], 0⟩
  else if ev.httpMethod = "POST" then
    match ev.body with
    | none => ⟨500, corsHeaders, .trackError, db, [], 0⟩
    | some raw => handlePost digestHex salt geo now ev db raw
  else if ev.httpMethod = "GET" then
    handleGet now ev db
  else
    ⟨405, corsHeaders, .methodNotAllowed, db, [], 0⟩

/-! ## pandalytics.ts : metrics ingestor, variant A -/

/-- Untyped POST body of pandalytics variant A, as produced by
`JSON.parse` and cast (unchecked) to `MetricData`. -/
structure MetricData where
  session_id : JVal := .vUndef
  site_id : JVal := .vUndef
  url : JVal := .vUndef
  path : JVal := .vUndef
  referrer : JVal := .vUndef
  country_code : JVal := .vUndef
  screen_width : JVal := .vUndef
  screen_height : JVal := .vUndef
  user_agent : JVal := .vUndef
  browser : JVal := .vUndef
  lcp : JVal := .vUndef
  cls : JVal := .vUndef
  fid : JVal := .vUndef
  fcp : JVal := .vUndef
  ttfb : JVal := .vUndef
  inp : JVal := .vUndef
  bounce : JVal := .vUndef
  deriving DecidableEq

/-- Inbound request to a pandalytics handler.  `body = none` models a
request body that `JSON.parse` rejects. -/
structure EventA where
  httpMethod : String
  xCountry : Option String := none
  body : Option MetricData := none

/-- Response bodies producible by the pandalytics handlers. -/
inductive BodyA where
  | methodNotAllowed
  | invalidJson
  | missingFields
  | serverConfigError
  | dbError
  | okTrue
  | internalError
  deriving DecidableEq

/-- JSON text of the fixed pandalytics response bodies. -/
def renderBodyA : BodyA → String
  | .methodNotAllowed => "\x7b\"error\":\"Method Not Allowed\"\x7d"
  | .invalidJson => "\x7b\"error\":\"Invalid JSON\"\x7d"
  | .missingFields =>
      "\x7b\"error\":\"Missing required fields: session_id, site_id, url\"\x7d"
  | .okTrue => "\x7b\"ok\":true\x7d"
  | _ => ""

/-- Headers attached to every pandalytics response (no CORS header in
the source). -/
def jsonHeaders : List (String × String) :=
  [("Content-Type", "application/json")]

/-- Result of one pandalytics handler invocation.  `storeCalls` counts
outbound fetches to the remote store. -/
structure ResultA where
  statusCode : Nat
  headers : List (String × String)
  body : BodyA
  storeCalls : Nat
  deriving DecidableEq

/-- Model of the pandalytics variant A handler.  `envOk` models the
presence of both `PANDALYTICS_TURSO_REST_ENDPOINT` and
`PANDALYTICS_TURSO_API_TOKEN`; `storeOk` models `response.ok` of the
store call. -/
def handlerA (envOk storeOk : Bool) (ev : EventA) : ResultA :=
  if ev.httpMethod ≠ "POST" then ⟨405, jsonHeaders, .methodNotAllowed, 0⟩
  else
    match ev.body with
    | none => ⟨400, jsonHeaders, .invalidJson, 0⟩
    | some d =>
      if ¬(d.session_id.truthy && d.site_id.truthy && d.url.truthy) then
        ⟨400, jsonHeaders, .missingFields, 0⟩
      else if envOk = false then ⟨500, jsonHeaders, .serverConfigError, 0⟩
      else if storeOk then ⟨200, jsonHeaders, .okTrue, 1⟩
      else ⟨500, jsonHeaders, .dbError, 1⟩

/-- Row of the variant A `sessions` table, with the columns named by its
`sessionSql` statement. -/
structure SessRowA where
  session_id : String
  site_id : String
  start_time : Int
  country_code : Option String
  screen_width : Option Int
  screen_height : Option Int
  user_agent : Option String
  browser : Option String
  updated_at : Int
  deriving DecidableEq

/-- Bound parameter values of one execution of `sessionSql`. -/
structure SessParamsA where
  session_id : String
  site_id : String
  start_time : Int
  country_code : Option String
  screen_width : Option Int
  screen_height : Option Int
  user_agent : Option String
  browser : String
  deriving DecidableEq

/-- SQL `COALESCE` on two nullable values: the first when it is not
NULL, otherwise the second. -/
def coalesce (a b : Option α) : Option α :=
  match a with
  | some x => some x
  | none => b

/-- The `ON CONFLICT(session_id) DO UPDATE SET` clause of `sessionSql`:
each listed column keeps its current value when not NULL and takes the
excluded (new) value otherwise; `updated_at` is reset to the current
time. -/
def upsertConflictUpdate (now : Int) (p : SessParamsA) (r : SessRowA) : SessRowA :=
  { r with
    country_code := coalesce r.country_code p.country_code
    screen_width := coalesce r.screen_width p.screen_width
    screen_height := coalesce r.screen_height p.screen_height
    user_agent := coalesce r.user_agent p.user_agent
    browser := coalesce r.browser (some p.browser)
    updated_at := now }

/-- Semantics of `sessionSql` (INSERT .. ON CONFLICT(session_id) DO
UPDATE) against the variant A `sessions` table. -/
def sessionUpsert (now : Int) (table : List SessRowA) (p : SessParamsA) : List SessRowA :=
  if table.any (fun r => r.session_id == p.session_id) then
    table.map (fun r =>
      if r.session_id == p.session_id then upsertConflictUpdate now p r else r)
  else
    table ++ [⟨p.session_id, p.site_id, p.start_time, p.country_code,
              p.screen_width, p.screen_height, p.user_agent, some p.browser, now⟩]

/-! ## pandalytics.ts : metrics ingestor, variant B -/

/-- Untyped POST body of pandalytics variant B. -/
structure MetricDataB where
  session_id : JVal := .vUndef
  site_id : JVal := .vUndef
  url : JVal := .vUndef
  path : JVal := .vUndef
  referrer : JVal := .vUndef
  country_code : JVal := .vUndef
  screen_width : JVal := .vUndef
  screen_height : JVal := .vUndef
  user_agent : JVal := .vUndef
  lcp : JVal := .vUndef
  cls : JVal := .vUndef
  fid : JVal := .vUndef
  fcp : JVal := .vUndef
  ttfb : JVal := .vUndef
  inp : JVal := .vUndef
  duration_ms : JVal := .vUndef
  bounce : JVal := .vUndef
  pageviews_in_session : JVal := .vUndef
  deriving DecidableEq

/-- Inbound request to the variant B handler. -/
structure EventB where
  httpMethod : String
  body : Option MetricDataB := none

/-- Model of the pandalytics variant B handler (single INSERT into the
`metrics` table; `storeOk` models `response.ok` of the store call). -/
def handlerB (storeOk : Bool) (ev : EventB) : ResultA :=
  if ev.httpMethod ≠ "POST" then ⟨405, jsonHeaders, .methodNotAllowed, 0⟩
  else
    match ev.body with
    | none => ⟨400, jsonHeaders, .invalidJson, 0⟩
    | some d =>
      if ¬(d.session_id.truthy && d.site_id.truthy && d.url.truthy) then
        ⟨400, jsonHeaders, .missingFields, 0⟩
      else if storeOk then ⟨200, jsonHeaders, .okTrue, 1⟩
      else ⟨500, jsonHeaders, .dbError, 1⟩

/-! ## Helper lemmas -/

theorem jsSubstring_length_le (s : String) (n : Nat) :
    (jsSubstring s n).length ≤ n := by
  show (s.data.take n).length ≤ n
  rw [List.length_take]
  exact Nat.min_le_left _ _

theorem strField_of_vStr (s : String) (n : Nat) :
    strField (.vStr s) n = some (jsSubstring s n) := rfl

theorem strField_of_not_str (v : JVal) (n : Nat) (h : ∀ s, v ≠ .vStr s) :
    strField v n = none := by
  cases v with
  | vStr s => exact absurd rfl (h s)
  | vNull => rfl
  | vUndef => rfl
  | vNum m => rfl
  | vBool b => rfl

theorem strField_length_le (v : JVal) (n : Nat) (t : String)
    (h : strField v n = some t) : t.length ≤ n := by
  cases v with
  | vStr s =>
    simp only [strField, Option.some.injEq] at h
    exact h ▸ jsSubstring_length_le s n
  | vNull => simp [strField] at h
  | vUndef => simp [strField] at h
  | vNum m => simp [strField] at h
  | vBool b => simp [strField] at h

theorem posNumField_iff (v : JVal) (n : Int) :
    posNumField v = some n ↔ v = .vNum n ∧ 0 < n := by
  cases v with
  | vNum m =>
    simp only [posNumField, JVal.vNum.injEq]
    by_cases h : 0 < m
    · rw [if_pos h]
      constructor
      · intro h2
        injection h2 with h2
        subst h2
        exact ⟨rfl, h⟩
      · rintro ⟨rfl, _⟩
        rfl
    · rw [if_neg h]
      constructor
      · intro h2; cases h2
      · rintro ⟨rfl, hn⟩
        exact absurd hn h
  | vNull => simp [posNumField]
  | vUndef => simp [posNumField]
  | vStr s => simp [posNumField]
  | vBool b => simp [posNumField]

theorem geoCountry_none (ev : Event) : geoCountry (fun _ => none) ev = none := by
  unfold geoCountry
  cases clientIP ev <;> rfl

theorem getCountryFromIP_ne_empty (o : GeoOutcome) :
    getCountryFromIP o ≠ some "" := by
  cases o with
  | ok cc =>
    cases cc with
    | some c =>
      by_cases h : c = "" <;> simp [getCountryFromIP, h]
    | none => simp [getCountryFromIP]
  | fetchError => simp [getCountryFromIP]
  | timeout => simp [getCountryFromIP]
  | okBadJson => simp [getCountryFromIP]
  | notOk st b => simp [getCountryFromIP]

theorem handler_post_eq (digestHex : String → String) (salt : String)
    (geo : String → Option String) (now : Nat) (ev : Event) (db : DB)
    (raw : RawData) (hm : ev.httpMethod = "POST") (hb : ev.body = some raw) :
    handler digestHex salt geo now true ev db =
      handlePost digestHex salt geo now ev db raw := by
  simp [handler, hm, hb]

theorem handlePost_new_session (digestHex : String → String) (salt : String)
    (geo : String → Option String) (now : Nat) (ev : Event) (db : DB)
    (raw : RawData) (p sid u : String)
    (hp : truthyOpt (validateAndSanitizeData raw).path = some p)
    (hu : resolveSiteUrl (validateAndSanitizeData raw) ev = some u)
    (hl : isLocal u = false)
    (hs : truthyOpt (validateAndSanitizeData raw).sessionId = some sid)
    (hnew : db.sessions.find?
      (fun r => r.session_hash == hashValue digestHex sid salt) = none) :
    handlePost digestHex salt geo now ev db raw =
      ⟨200, corsHeaders, .success,
       ⟨db.sessions ++
          [⟨hashValue digestHex sid salt, p, p, u,
            uaHashOf digestHex salt (validateAndSanitizeData raw),
            geoCountry geo ev, 1, now, 0⟩],
        db.page_views ++
          [⟨p, u, (validateAndSanitizeData raw).referrer,
            uaHashOf digestHex salt (validateAndSanitizeData raw),
            geoCountry geo ev, (validateAndSanitizeData raw).screenWidth,
            (validateAndSanitizeData raw).screenHeight,
            some (hashValue digestHex sid salt), 0, now⟩]⟩,
       [.selectSession (hashValue digestHex sid salt),
        .insertSession (hashValue digestHex sid salt) p p u
          (uaHashOf digestHex salt (validateAndSanitizeData raw))
          (geoCountry geo ev),
        .insertPageView p u (validateAndSanitizeData raw).referrer
          (uaHashOf digestHex salt (validateAndSanitizeData raw))
          (geoCountry geo ev) (validateAndSanitizeData raw).screenWidth
          (validateAndSanitizeData raw).screenHeight
          (some (hashValue digestHex sid salt)) 0],
       geoCallsFor ev⟩ := by
  simp only [handlePost, hp, hu, hl, sessionHashOf, hs, Option.map_some', hnew,
    Bool.false_eq_true, if_false]

theorem handlePost_existing_country (digestHex : String → String) (salt : String)
    (geo : String → Option String) (now : Nat) (ev : Event) (db : DB)
    (raw : RawData) (p sid u c : String) (row : SessionRow)
    (hp : truthyOpt (validateAndSanitizeData raw).path = some p)
    (hu : resolveSiteUrl (validateAndSanitizeData raw) ev = some u)
    (hl : isLocal u = false)
    (hs : truthyOpt (validateAndSanitizeData raw).sessionId = some sid)
    (hfind : db.sessions.find?
      (fun r => r.session_hash == hashValue digestHex sid salt) = some row)
    (hc : truthyOpt row.country_code = some c) :
    handlePost digestHex salt geo now ev db raw =
      ⟨200, corsHeaders, .success,
       ⟨db.sessions,
        db.page_views ++
          [⟨p, u, (validateAndSanitizeData raw).referrer,
            uaHashOf digestHex salt (validateAndSanitizeData raw),
            some c, (validateAndSanitizeData raw).screenWidth,
            (validateAndSanitizeData raw).screenHeight,
            some (hashValue digestHex sid salt), 0, now⟩]⟩,
       [.selectSession (hashValue digestHex sid salt),
        .insertPageView p u (validateAndSanitizeData raw).referrer
          (uaHashOf digestHex salt (validateAndSanitizeData raw))
          (some c) (validateAndSanitizeData raw).screenWidth
          (validateAndSanitizeData raw).screenHeight
          (some (hashValue digestHex sid salt)) 0],
       0⟩ := by
  simp only [handlePost, hp, hu, hl, sessionHashOf, hs, Option.map_some', hfind,
    hc, Bool.false_eq_true, if_false]

theorem handlePost_existing_nocountry (digestHex : String → String) (salt : String)
    (geo : String → Option String) (now : Nat) (ev : Event) (db : DB)
    (raw : RawData) (p sid u : String) (row : SessionRow)
    (hp : truthyOpt (validateAndSanitizeData raw).path = some p)
    (hu : resolveSiteUrl (validateAndSanitizeData raw) ev = some u)
    (hl : isLocal u = false)
    (hs : truthyOpt (validateAndSanitizeData raw).sessionId = some sid)
    (hfind : db.sessions.find?
      (fun r => r.session_hash == hashValue digestHex sid salt) = some row)
    (hc : truthyOpt row.country_code = none) :
    handlePost digestHex salt geo now ev db raw =
      ⟨200, corsHeaders, .success,
       ⟨db.sessions.map (fun r =>
          if r.session_hash == hashValue digestHex sid salt then
            { r with
              last_page := p
              page_count := r.page_count + 1
              duration_seconds := (now : Int) - (r.timestamp : Int)
              country_code := geoCountry geo ev }
          else r),
        db.page_views ++
          [⟨p, u, (validateAndSanitizeData raw).referrer,
            uaHashOf digestHex salt (validateAndSanitizeData raw),
            geoCountry geo ev, (validateAndSanitizeData raw).screenWidth,
            (validateAndSanitizeData raw).screenHeight,
            some (hashValue digestHex sid salt), 0, now⟩]⟩,
       [.selectSession (hashValue digestHex sid salt),
        .updateSession p (geoCountry geo ev) (hashValue digestHex sid salt),
        .insertPageView p u (validateAndSanitizeData raw).referrer
          (uaHashOf digestHex salt (validateAndSanitizeData raw))
          (geoCountry geo ev) (validateAndSanitizeData raw).screenWidth
          (validateAndSanitizeData raw).screenHeight
          (some (hashValue digestHex sid salt)) 0],
       geoCallsFor ev⟩ := by
  simp only [handlePost, hp, hu, hl, sessionHashOf, hs, Option.map_some', hfind,
    hc, Bool.false_eq_true, if_false]

/-! ## Claim theorems -/

/-- Claim C7: for every arbitrary untyped payload, the sanitizer returns
a record where path, referrer and site-url are truncated to 500
characters, user agent to 1000, session id to 100, each coerced to null
when not a string, and screen width/height are kept only when they are
positive numbers and are null otherwise. -/
theorem c7_sanitizer (raw : RawData) :
    (∀ s, raw.path = .vStr s →
      (validateAndSanitizeData raw).path = some (jsSubstring s 500)) ∧
    ((∀ s, raw.path ≠ .vStr s) → (validateAndSanitizeData raw).path = none) ∧
    (∀ t, (validateAndSanitizeData raw).path = some t → t.length ≤ 500) ∧
    (∀ s, raw.referrer = .vStr s →
      (validateAndSanitizeData raw).referrer = some (jsSubstring s 500)) ∧
    ((∀ s, raw.referrer ≠ .vStr s) → (validateAndSanitizeData raw).referrer = none) ∧
    (∀ t, (validateAndSanitizeData raw).referrer = some t → t.length ≤ 500) ∧
    (∀ s, raw.siteUrl = .vStr s →
      (validateAndSanitizeData raw).siteUrl = some (jsSubstring s 500)) ∧
    ((∀ s, raw.siteUrl ≠ .vStr s) → (validateAndSanitizeData raw).siteUrl = none) ∧
    (∀ t, (validateAndSanitizeData raw).siteUrl = some t → t.length ≤ 500) ∧
    (∀ s, raw.userAgent = .vStr s →
      (validateAndSanitizeData raw).userAgent = some (jsSubstring s 1000)) ∧
    ((∀ s, raw.userAgent ≠ .vStr s) → (validateAndSanitizeData raw).userAgent = none) ∧
    (∀ t, (validateAndSanitizeData raw).userAgent = some t → t.length ≤ 1000) ∧
    (∀ s, raw.sessionId = .vStr s →
      (validateAndSanitizeData raw).sessionId = some (jsSubstring s 100)) ∧
    ((∀ s, raw.sessionId ≠ .vStr s) → (validateAndSanitizeData raw).sessionId = none) ∧
    (∀ t, (validateAndSanitizeData raw).sessionId = some t → t.length ≤ 100) ∧
    (∀ n, (validateAndSanitizeData raw).screenWidth = some n ↔
      raw.screenWidth = .vNum n ∧ 0 < n) ∧
    (∀ n, (validateAndSanitizeData raw).screenHeight = some n ↔
      raw.screenHeight = .vNum n ∧ 0 < n) := by
  refine ⟨?_, ?_, ?_, ?_, ?_, ?_, ?_, ?_, ?_, ?_, ?_, ?_, ?_, ?_, ?_, ?_, ?_⟩
  · intro s h; simp [validateAndSanitizeData, h, strField_of_vStr]
  · intro h; simp [validateAndSanitizeData, strField_of_not_str _ _ h]
  · intro t h; exact strField_length_le _ _ _ h
  · intro s h; simp [validateAndSanitizeData, h, strField_of_vStr]
  · intro h; simp [validateAndSanitizeData, strField_of_not_str _ _ h]
  · intro t h; exact strField_length_le _ _ _ h
  · intro s h; simp [validateAndSanitizeData, h, strField_of_vStr]
  · intro h; simp [validateAndSanitizeData, strField_of_not_str _ _ h]
  · intro t h; exact strField_length_le _ _ _ h
  · intro s h; simp [validateAndSanitizeData, h, strField_of_vStr]
  · intro h; simp [validateAndSanitizeData, strField_of_not_str _ _ h]
  · intro t h; exact strField_length_le _ _ _ h
  · intro s h; simp [validateAndSanitizeData, h, strField_of_vStr]
  · intro h; simp [validateAndSanitizeData, strField_of_not_str _ _ h]
  · intro t h; exact strField_length_le _ _ _ h
  · intro n; exact posNumField_iff _ _
  · intro n; exact posNumField_iff _ _

/-- Witness for C7 at a concrete payload: a string path is truncated and
kept, a null referrer maps to null, a positive screen width is kept. -/
theorem c7_sanitizer_witness :
    (validateAndSanitizeData
      ⟨.vStr "/a", .vNull, .vStr "UA", .vStr "sid", .vNum 800, .vNum 0,
       .vStr "https://x.com"⟩).path = some (jsSubstring "/a" 500) ∧
    (validateAndSanitizeData
      ⟨.vStr "/a", .vNull, .vStr "UA", .vStr "sid", .vNum 800, .vNum 0,
       .vStr "https://x.com"⟩).referrer = none ∧
    (validateAndSanitizeData
      ⟨.vStr "/a", .vNull, .vStr "UA", .vStr "sid", .vNum 800, .vNum 0,
       .vStr "https://x.com"⟩).screenWidth = some 800 := by
  refine ⟨(c7_sanitizer _).1 "/a" rfl,
    (c7_sanitizer _).2.2.2.2.1 (fun s h => JVal.noConfusion h),
    ((c7_sanitizer _).2.2.2.2.2.2.2.2.2.2.2.2.2.2.2.1 800).mpr ⟨rfl, by decide⟩⟩

/-- Claim C4: the geolocation resolver returns an ISO country code or
null and never throws — every failure outcome (network error, non-success
HTTP response, malformed body, timeout) yields null, the wait is bounded
by a 5-second timeout treated like any other failure, and an ingest
request whose geolocation fails still succeeds with 200 and a null
recorded country. -/
theorem c4_geo_failure (digestHex : String → String) (salt : String)
    (now : Nat) (ev : Event) (db : DB) (raw : RawData) (p sid u : String)
    (hm : ev.httpMethod = "POST") (hb : ev.body = some raw)
    (hp : truthyOpt (validateAndSanitizeData raw).path = some p)
    (hu : resolveSiteUrl (validateAndSanitizeData raw) ev = some u)
    (hl : isLocal u = false)
    (hs : truthyOpt (validateAndSanitizeData raw).sessionId = some sid)
    (hnew : db.sessions.find?
      (fun r => r.session_hash == hashValue digestHex sid salt) = none) :
    geoTimeoutMs = 5000 ∧
    getCountryFromIP .fetchError = none ∧
    getCountryFromIP .timeout = none ∧
    getCountryFromIP .okBadJson = none ∧
    (∀ st b, getCountryFromIP (.notOk st b) = none) ∧
    getCountryFromIP (.ok none) = none ∧
    (∀ o, getCountryFromIP o = none ∨
      ∃ c, getCountryFromIP o = some c ∧ c ≠ "") ∧
    (handler digestHex salt (fun _ => none) now true ev db).statusCode = 200 ∧
    (handler digestHex salt (fun _ => none) now true ev db).body = .success ∧
    (handler digestHex salt (fun _ => none) now true ev db).db.sessions =
      db.sessions ++
        [⟨hashValue digestHex sid salt, p, p, u,
          uaHashOf digestHex salt (validateAndSanitizeData raw), none, 1, now, 0⟩] ∧
    (handler digestHex salt (fun _ => none) now true ev db).db.page_views =
      db.page_views ++
        [⟨p, u, (validateAndSanitizeData raw).referrer,
          uaHashOf digestHex salt (validateAndSanitizeData raw), none,
          (validateAndSanitizeData raw).screenWidth,
          (validateAndSanitizeData raw).screenHeight,
          some (hashValue digestHex sid salt), 0, now⟩] := by
  have hrun : handler digestHex salt (fun _ => none) now true ev db =
      handlePost digestHex salt (fun _ => none) now ev db raw :=
    handler_post_eq _ _ _ _ _ _ _ hm hb
  have hpost := handlePost_new_session digestHex salt (fun _ => none) now ev db
    raw p sid u hp hu hl hs hnew
  rw [geoCountry_none] at hpost
  refine ⟨rfl, rfl, rfl, rfl, fun st b => rfl, rfl, ?_, ?_, ?_, ?_, ?_⟩
  · intro o
    cases ho : getCountryFromIP o with
    | none => exact Or.inl rfl
    | some c =>
      refine Or.inr ⟨c, rfl, ?_⟩
      intro hc
      subst hc
      exact getCountryFromIP_ne_empty o ho
  · rw [hrun, hpost]
  · rw [hrun, hpost]
  · rw [hrun, hpost]
  · rw [hrun, hpost]

/-- Witness for C4 at the concrete beacon of the spec example, with every
geolocation lookup failing: the request succeeds with a new session row
and page-view row both carrying a null country. -/
theorem c4_geo_failure_witness :
    (handler (fun s => s) "default-salt" (fun _ => none) 1000 true
      ⟨"POST", some "1.2.3.4", none, none, none, none,
       some ⟨.vStr "/listing/42", .vUndef, .vUndef, .vStr "abc123", .vUndef,
             .vUndef, .vStr "https://phuket-property.com"⟩⟩
      ⟨[], []⟩).statusCode = 200 ∧
    (handler (fun s => s) "default-salt" (fun _ => none) 1000 true
      ⟨"POST", some "1.2.3.4", none, none, none, none,
       some ⟨.vStr "/listing/42", .vUndef, .vUndef, .vStr "abc123", .vUndef,
             .vUndef, .vStr "https://phuket-property.com"⟩⟩
      ⟨[], []⟩).db.sessions =
      [⟨"abc123default-sa", "/listing/42", "/listing/42",
        "https://phuket-property.com", none, none, 1, 1000, 0⟩] := by
  have h := c4_geo_failure (fun s => s) "default-salt" 1000
    ⟨"POST", some "1.2.3.4", none, none, none, none,
     some ⟨.vStr "/listing/42", .vUndef, .vUndef, .vStr "abc123", .vUndef,
           .vUndef, .vStr "https://phuket-property.com"⟩⟩
    ⟨[], []⟩
    ⟨.vStr "/listing/42", .vUndef, .vUndef, .vStr "abc123", .vUndef,
     .vUndef, .vStr "https://phuket-property.com"⟩
    "/listing/42" "abc123" "https://phuket-property.com"
    rfl rfl (by decide) (by decide) (by decide) (by decide) (by decide)
  exact ⟨h.2.2.2.2.2.2.2.1, by rw [h.2.2.2.2.2.2.2.2.2.1]; rfl⟩

/-- Claim C1: for every valid POST beacon carrying a session identifier
with no existing session row, the handler inserts exactly one new
session row with first-seen data and then unconditionally inserts one
page-view row linked to the session by the hashed fingerprint of the
session identifier, and responds 200 with a success-true JSON body. -/
theorem c1_new_session (digestHex : String → String) (salt : String)
    (geo : String → Option String) (now : Nat) (ev : Event) (db : DB)
    (raw : RawData) (p sid u : String)
    (hm : ev.httpMethod = "POST") (hb : ev.body = some raw)
    (hp : truthyOpt (validateAndSanitizeData raw).path = some p)
    (hu : resolveSiteUrl (validateAndSanitizeData raw) ev = some u)
    (hl : isLocal u = false)
    (hs : truthyOpt (validateAndSanitizeData raw).sessionId = some sid)
    (hnew : db.sessions.find?
      (fun r => r.session_hash == hashValue digestHex sid salt) = none) :
    (handler digestHex salt geo now true ev db).statusCode = 200 ∧
    (handler digestHex salt geo now true ev db).body = .success ∧
    renderBody .success = "\x7b\"success\":true\x7d" ∧
    (handler digestHex salt geo now true ev db).db.sessions =
      db.sessions ++
        [⟨hashValue digestHex sid salt, p, p, u,
          uaHashOf digestHex salt (validateAndSanitizeData raw),
          geoCountry geo ev, 1, now, 0⟩] ∧
    (handler digestHex salt geo now true ev db).db.page_views =
      db.page_views ++
        [⟨p, u, (validateAndSanitizeData raw).referrer,
          uaHashOf digestHex salt (validateAndSanitizeData raw),
          geoCountry geo ev, (validateAndSanitizeData raw).screenWidth,
          (validateAndSanitizeData raw).screenHeight,
          some (hashValue digestHex sid salt), 0, now⟩] ∧
    ((handler digestHex salt geo now true ev db).storeOps.countP
      StoreOp.isSessionInsert) = 1 ∧
    ((handler digestHex salt geo now true ev db).storeOps.countP
      StoreOp.isPageViewInsert) = 1 := by
  have hrun : handler digestHex salt geo now true ev db =
      handlePost digestHex salt geo now ev db raw :=
    handler_post_eq _ _ _ _ _ _ _ hm hb
  have hpost := handlePost_new_session digestHex salt geo now ev db
    raw p sid u hp hu hl hs hnew
  rw [hrun, hpost]
  refine ⟨rfl, rfl, rfl, rfl, rfl, ?_, ?_⟩
  · simp [List.countP, List.countP.go, StoreOp.isSessionInsert]
  · simp [List.countP, List.countP.go, StoreOp.isPageViewInsert]

/-- Witness for C1 at the spec example `{"path":"/listing/42",
"siteUrl":"https://phuket-property.com","sessionId":"abc123"}` against an
empty store. -/
theorem c1_new_session_witness :
    (handler (fun s => s) "default-salt" (fun _ => some "TH") 1000 true
      ⟨"POST", some "1.2.3.4", none, none, none, none,
       some ⟨.vStr "/listing/42", .vUndef, .vUndef, .vStr "abc123", .vUndef,
             .vUndef, .vStr "https://phuket-property.com"⟩⟩
      ⟨[], []⟩).statusCode = 200 ∧
    (handler (fun s => s) "default-salt" (fun _ => some "TH") 1000 true
      ⟨"POST", some "1.2.3.4", none, none, none, none,
       some ⟨.vStr "/listing/42", .vUndef, .vUndef, .vStr "abc123", .vUndef,
             .vUndef, .vStr "https://phuket-property.com"⟩⟩
      ⟨[], []⟩).db.sessions =
      [⟨"abc123default-sa", "/listing/42", "/listing/42",
        "https://phuket-property.com", none, some "TH", 1, 1000, 0⟩] ∧
    (handler (fun s => s) "default-salt" (fun _ => some "TH") 1000 true
      ⟨"POST", some "1.2.3.4", none, none, none, none,
       some ⟨.vStr "/listing/42", .vUndef, .vUndef, .vStr "abc123", .vUndef,
             .vUndef, .vStr "https://phuket-property.com"⟩⟩
      ⟨[], []⟩).db.page_views =
      [⟨"/listing/42", "https://phuket-property.com", none, none, some "TH",
        none, none, some "abc123default-sa", 0, 1000⟩] := by
  have h := c1_new_session (fun s => s) "default-salt" (fun _ => some "TH") 1000
    ⟨"POST", some "1.2.3.4", none, none, none, none,
     some ⟨.vStr "/listing/42", .vUndef, .vUndef, .vStr "abc123", .vUndef,
           .vUndef, .vStr "https://phuket-property.com"⟩⟩
    ⟨[], []⟩
    ⟨.vStr "/listing/42", .vUndef, .vUndef, .vStr "abc123", .vUndef,
     .vUndef, .vStr "https://phuket-property.com"⟩
    "/listing/42" "abc123" "https://phuket-property.com"
    rfl rfl (by decide) (by decide) (by decide) (by decide) (by decide)
  exact ⟨h.1, by rw [h.2.2.2.1]; rfl, by rw [h.2.2.2.2.1]; rfl⟩

theorem sessionUpsert_preserves (now : Int) (table : List SessRowA)
    (p : SessParamsA) (r : SessRowA) (c : String)
    (hr : r ∈ table) (hc : r.country_code = some c) :
    ∃ r2 ∈ sessionUpsert now table p,
      r2.session_id = r.session_id ∧ r2.country_code = some c := by
  unfold sessionUpsert
  by_cases h : table.any (fun x => x.session_id == p.session_id)
  · rw [if_pos h]
    refine ⟨if r.session_id == p.session_id then upsertConflictUpdate now p r else r,
      List.mem_map_of_mem _ hr, ?_⟩
    by_cases he : r.session_id == p.session_id
    · rw [if_pos he]
      exact ⟨rfl, by simp [upsertConflictUpdate, coalesce, hc]⟩
    · rw [if_neg he]
      exact ⟨rfl, hc⟩
  · rw [if_neg h]
    exact ⟨r, List.mem_append_left _ hr, rfl, hc⟩

/-- Counterexample for claim C2 as stated: a stored country code of `""`
is non-null, yet the session/page-view ingestor treats it as missing
(JavaScript truthiness), issues a geolocation lookup for the second
beacon of the session, and overwrites the stored value with null when
the lookup fails. -/
theorem c2_counterexample :
    ((⟨[⟨"h1", "/a", "/a", "s", none, some "", 1, 0, 0⟩], []⟩ : DB).sessions.map
       (fun r => r.country_code)) = [some ""] ∧
    ((handler (fun _ => "h1") "default-salt" (fun _ => none) 50 true
       ⟨"POST", some "1.2.3.4", none, none, none, none,
        some ⟨.vStr "/b", .vUndef, .vUndef, .vStr "h1", .vUndef, .vUndef,
              .vStr "https://x.com"⟩⟩
       ⟨[⟨"h1", "/a", "/a", "s", none, some "", 1, 0, 0⟩], []⟩).db.sessions.map
       (fun r => r.country_code)) = [none] ∧
    (handler (fun _ => "h1") "default-salt" (fun _ => none) 50 true
       ⟨"POST", some "1.2.3.4", none, none, none, none,
        some ⟨.vStr "/b", .vUndef, .vUndef, .vStr "h1", .vUndef, .vUndef,
              .vStr "https://x.com"⟩⟩
       ⟨[⟨"h1", "/a", "/a", "s", none, some "", 1, 0, 0⟩], []⟩).geoCalls = 1 := by
  decide

/-- Claim C2 (amended): for every session whose stored country code is a
non-empty string, the session/page-view ingestor leaves the session rows
untouched, records the stored country on the new page-view row, and
issues zero geolocation lookups; the geolocation resolver itself can
never produce the empty string; and the variant A upsert preserves any
non-null stored country via its COALESCE clause. -/
theorem c2_country_preserved (digestHex : String → String) (salt : String)
    (geo : String → Option String) (now : Nat) (ev : Event) (db : DB)
    (raw : RawData) (p sid u c : String) (row : SessionRow)
    (nowA : Int) (table : List SessRowA) (q : SessParamsA) (rA : SessRowA)
    (cA : String)
    (hm : ev.httpMethod = "POST") (hb : ev.body = some raw)
    (hp : truthyOpt (validateAndSanitizeData raw).path = some p)
    (hu : resolveSiteUrl (validateAndSanitizeData raw) ev = some u)
    (hl : isLocal u = false)
    (hs : truthyOpt (validateAndSanitizeData raw).sessionId = some sid)
    (hfind : db.sessions.find?
      (fun r => r.session_hash == hashValue digestHex sid salt) = some row)
    (hc : row.country_code = some c) (hcne : c ≠ "")
    (hrA : rA ∈ table) (hcA : rA.country_code = some cA) :
    (handler digestHex salt geo now true ev db).geoCalls = 0 ∧
    (handler digestHex salt geo now true ev db).db.sessions = db.sessions ∧
    (handler digestHex salt geo now true ev db).db.page_views =
      db.page_views ++
        [⟨p, u, (validateAndSanitizeData raw).referrer,
          uaHashOf digestHex salt (validateAndSanitizeData raw),
          some c, (validateAndSanitizeData raw).screenWidth,
          (validateAndSanitizeData raw).screenHeight,
          some (hashValue digestHex sid salt), 0, now⟩] ∧
    (∀ o, getCountryFromIP o ≠ some "") ∧
    (∃ r2 ∈ sessionUpsert nowA table q,
      r2.session_id = rA.session_id ∧ r2.country_code = some cA) := by
  have hcT : truthyOpt row.country_code = some c := by
    simp [truthyOpt, hc, hcne]
  have hrun : handler digestHex salt geo now true ev db =
      handlePost digestHex salt geo now ev db raw :=
    handler_post_eq _ _ _ _ _ _ _ hm hb
  have hpost := handlePost_existing_country digestHex salt geo now ev db
    raw p sid u c row hp hu hl hs hfind hcT
  rw [hrun, hpost]
  exact ⟨rfl, rfl, rfl, getCountryFromIP_ne_empty,
    sessionUpsert_preserves nowA table q rA cA hrA hcA⟩

/-- Witness for C2 (amended): a second beacon for a session whose stored
country is "TH" leaves the store's session rows unchanged and issues no
geolocation call, and a variant A upsert with a null incoming country
keeps a stored "TH". -/
theorem c2_country_preserved_witness :
    (handler (fun _ => "h1") "default-salt" (fun _ => none) 50 true
      ⟨"POST", some "1.2.3.4", none, none, none, none,
       some ⟨.vStr "/b", .vUndef, .vUndef, .vStr "h1", .vUndef, .vUndef,
             .vStr "https://x.com"⟩⟩
      ⟨[⟨"h1", "/a", "/a", "s", none, some "TH", 1, 0, 0⟩], []⟩).geoCalls = 0 ∧
    (handler (fun _ => "h1") "default-salt" (fun _ => none) 50 true
      ⟨"POST", some "1.2.3.4", none, none, none, none,
       some ⟨.vStr "/b", .vUndef, .vUndef, .vStr "h1", .vUndef, .vUndef,
             .vStr "https://x.com"⟩⟩
      ⟨[⟨"h1", "/a", "/a", "s", none, some "TH", 1, 0, 0⟩], []⟩).db.sessions =
      [⟨"h1", "/a", "/a", "s", none, some "TH", 1, 0, 0⟩] ∧
    (∃ r2 ∈ sessionUpsert 99 [⟨"sid1", "site", 7, some "TH", none, none, none,
        some "Chrome 1", 7⟩]
        ⟨"sid1", "site", 8, none, none, none, none, "Chrome 2"⟩,
      r2.session_id = "sid1" ∧ r2.country_code = some "TH") := by
  have h := c2_country_preserved (fun _ => "h1") "default-salt" (fun _ => none)
    50
    ⟨"POST", some "1.2.3.4", none, none, none, none,
     some ⟨.vStr "/b", .vUndef, .vUndef, .vStr "h1", .vUndef, .vUndef,
           .vStr "https://x.com"⟩⟩
    ⟨[⟨"h1", "/a", "/a", "s", none, some "TH", 1, 0, 0⟩], []⟩
    ⟨.vStr "/b", .vUndef, .vUndef, .vStr "h1", .vUndef, .vUndef,
     .vStr "https://x.com"⟩
    "/b" "h1" "https://x.com" "TH"
    ⟨"h1", "/a", "/a", "s", none, some "TH", 1, 0, 0⟩
    99 [⟨"sid1", "site", 7, some "TH", none, none, none, some "Chrome 1", 7⟩]
    ⟨"sid1", "site", 8, none, none, none, none, "Chrome 2"⟩
    ⟨"sid1", "site", 7, some "TH", none, none, none, some "Chrome 1", 7⟩
    "TH"
    rfl rfl (by decide) (by decide) (by decide) (by decide) (by decide)
    (by decide) (by decide) (by decide) (by decide)
  exact ⟨h.1, by rw [h.2.1], h.2.2.2.2⟩

/-- Counterexample for claim C3 as stated: a subsequent beacon (path
"/b") of a session whose stored row already carries a country is
processed with status 200, yet the session row is not updated at all —
its last page stays "/a" instead of being refreshed to "/b". -/
theorem c3_counterexample :
    (handler (fun _ => "h1") "default-salt" (fun _ => none) 50 true
      ⟨"POST", some "1.2.3.4", none, none, none, none,
       some ⟨.vStr "/b", .vUndef, .vUndef, .vStr "h1", .vUndef, .vUndef,
             .vStr "https://x.com"⟩⟩
      ⟨[⟨"h1", "/a", "/a", "s", none, some "TH", 1, 0, 0⟩], []⟩).statusCode = 200 ∧
    (handler (fun _ => "h1") "default-salt" (fun _ => none) 50 true
      ⟨"POST", some "1.2.3.4", none, none, none, none,
       some ⟨.vStr "/b", .vUndef, .vUndef, .vStr "h1", .vUndef, .vUndef,
             .vStr "https://x.com"⟩⟩
      ⟨[⟨"h1", "/a", "/a", "s", none, some "TH", 1, 0, 0⟩], []⟩).db.sessions =
      [⟨"h1", "/a", "/a", "s", none, some "TH", 1, 0, 0⟩] ∧
    ((handler (fun _ => "h1") "default-salt" (fun _ => none) 50 true
      ⟨"POST", some "1.2.3.4", none, none, none, none,
       some ⟨.vStr "/b", .vUndef, .vUndef, .vStr "h1", .vUndef, .vUndef,
             .vStr "https://x.com"⟩⟩
      ⟨[⟨"h1", "/a", "/a", "s", none, some "TH", 1, 0, 0⟩], []⟩).storeOps.countP
        (fun op => op matches .updateSession _ _ _)) = 0 := by
  decide

/-- Claim C3 (amended): a session row is updated in place only when the
stored session is missing a truthy country; that update refreshes last
page and country, increments the page count, and recomputes the elapsed
duration from the original row timestamp; afterwards the page-view row
is inserted. -/
theorem c3_session_update (digestHex : String → String) (salt : String)
    (geo : String → Option String) (now : Nat) (ev : Event) (db : DB)
    (raw : RawData) (p sid u : String) (row : SessionRow)
    (hm : ev.httpMethod = "POST") (hb : ev.body = some raw)
    (hp : truthyOpt (validateAndSanitizeData raw).path = some p)
    (hu : resolveSiteUrl (validateAndSanitizeData raw) ev = some u)
    (hl : isLocal u = false)
    (hs : truthyOpt (validateAndSanitizeData raw).sessionId = some sid)
    (hfind : db.sessions.find?
      (fun r => r.session_hash == hashValue digestHex sid salt) = some row)
    (hc : truthyOpt row.country_code = none) :
    (handler digestHex salt geo now true ev db).statusCode = 200 ∧
    (handler digestHex salt geo now true ev db).db.sessions =
      db.sessions.map (fun r =>
        if r.session_hash == hashValue digestHex sid salt then
          { r with
            last_page := p
            page_count := r.page_count + 1
            duration_seconds := (now : Int) - (r.timestamp : Int)
            country_code := geoCountry geo ev }
        else r) ∧
    (handler digestHex salt geo now true ev db).storeOps =
      [.selectSession (hashValue digestHex sid salt),
       .updateSession p (geoCountry geo ev) (hashValue digestHex sid salt),
       .insertPageView p u (validateAndSanitizeData raw).referrer
         (uaHashOf digestHex salt (validateAndSanitizeData raw))
         (geoCountry geo ev) (validateAndSanitizeData raw).screenWidth
         (validateAndSanitizeData raw).screenHeight
         (some (hashValue digestHex sid salt)) 0] ∧
    (handler digestHex salt geo now true ev db).db.page_views =
      db.page_views ++
        [⟨p, u, (validateAndSanitizeData raw).referrer,
          uaHashOf digestHex salt (validateAndSanitizeData raw),
          geoCountry geo ev, (validateAndSanitizeData raw).screenWidth,
          (validateAndSanitizeData raw).screenHeight,
          some (hashValue digestHex sid salt), 0, now⟩] := by
  have hrun : handler digestHex salt geo now true ev db =
      handlePost digestHex salt geo now ev db raw :=
    handler_post_eq _ _ _ _ _ _ _ hm hb
  have hpost := handlePost_existing_nocountry digestHex salt geo now ev db
    raw p sid u row hp hu hl hs hfind hc
  rw [hrun, hpost]
  exact ⟨rfl, rfl, rfl, rfl⟩

/-- Witness for C3 (amended): a second beacon for a session stored
without a country updates the row in place — last page becomes "/b",
page count goes from 1 to 2, duration becomes 50 - 0, country becomes
the freshly resolved "TH". -/
theorem c3_session_update_witness :
    (handler (fun _ => "h1") "default-salt" (fun _ => some "TH") 50 true
      ⟨"POST", some "1.2.3.4", none, none, none, none,
       some ⟨.vStr "/b", .vUndef, .vUndef, .vStr "h1", .vUndef, .vUndef,
             .vStr "https://x.com"⟩⟩
      ⟨[⟨"h1", "/a", "/a", "s", none, none, 1, 0, 0⟩], []⟩).db.sessions =
      [⟨"h1", "/a", "/b", "s", none, some "TH", 2, 0, 50⟩] := by
  have h := c3_session_update (fun _ => "h1") "default-salt" (fun _ => some "TH")
    50
    ⟨"POST", some "1.2.3.4", none, none, none, none,
     some ⟨.vStr "/b", .vUndef, .vUndef, .vStr "h1", .vUndef, .vUndef,
           .vStr "https://x.com"⟩⟩
    ⟨[⟨"h1", "/a", "/a", "s", none, none, 1, 0, 0⟩], []⟩
    ⟨.vStr "/b", .vUndef, .vUndef, .vStr "h1", .vUndef, .vUndef,
     .vStr "https://x.com"⟩
    "/b" "h1" "https://x.com"
    ⟨"h1", "/a", "/a", "s", none, none, 1, 0, 0⟩
    rfl rfl (by decide) (by decide) (by decide) (by decide) (by decide)
    (by decide)
  rw [h.2.1]
  rfl

/-- Counterexample for claim C5 as stated: when the database environment
configuration is absent, the metrics ingestor (pandalytics variant A,
cited by the claim) answers a valid POST with a 500 "Server
configuration error", not a 200 no-op success. -/
theorem c5_counterexample :
    (handlerA false true
      ⟨"POST", none,
       some { session_id := .vStr "s1", site_id := .vStr "site",
              url := .vStr "https://x.com" }⟩).statusCode = 500 ∧
    (handlerA false true
      ⟨"POST", none,
       some { session_id := .vStr "s1", site_id := .vStr "site",
              url := .vStr "https://x.com" }⟩).body = .serverConfigError := by
  decide

/-- Claim C5 (amended): with database configuration absent, the
session/page-view ingestor answers every non-OPTIONS request 200 with
the "Analytics disabled" no-op body and touches neither the store nor
the geolocation service, while the metrics ingestor variant A instead
answers a field-complete POST with a 500 configuration error and zero
store calls. -/
theorem c5_analytics_disabled (digestHex : String → String) (salt : String)
    (geo : String → Option String) (now : Nat) (ev : Event) (db : DB)
    (storeOk : Bool) (evA : EventA) (d : MetricData)
    (hm : ev.httpMethod ≠ "OPTIONS")
    (hmA : evA.httpMethod = "POST") (hbA : evA.body = some d)
    (hfields : (d.session_id.truthy && d.site_id.truthy && d.url.truthy) = true) :
    (handler digestHex salt geo now false ev db).statusCode = 200 ∧
    (handler digestHex salt geo now false ev db).body = .disabled ∧
    renderBody .disabled =
      "\x7b\"success\":true,\"message\":\"Analytics disabled\"\x7d" ∧
    (handler digestHex salt geo now false ev db).db = db ∧
    (handler digestHex salt geo now false ev db).storeOps = [] ∧
    (handler digestHex salt geo now false ev db).geoCalls = 0 ∧
    (handlerA false storeOk evA).statusCode = 500 ∧
    (handlerA false storeOk evA).body = .serverConfigError ∧
    (handlerA false storeOk evA).storeCalls = 0 := by
  have hdis : handler digestHex salt geo now false ev db =
      ⟨200, corsHeaders, .disabled, db, [], 0⟩ := by
    simp [handler, hm]
  have hA : handlerA false storeOk evA = ⟨500, jsonHeaders, .serverConfigError, 0⟩ := by
    simp [handlerA, hmA, hbA, hfields]
  rw [hdis, hA]
  exact ⟨rfl, rfl, rfl, rfl, rfl, rfl, rfl, rfl, rfl⟩

/-- Witness for C5 (amended) at a concrete GET request and a concrete
field-complete metrics POST. -/
theorem c5_analytics_disabled_witness :
    (handler (fun s => s) "default-salt" (fun _ => none) 0 false
      ⟨"GET", none, none, none, none, none, none⟩ ⟨[], []⟩).statusCode = 200 ∧
    (handler (fun s => s) "default-salt" (fun _ => none) 0 false
      ⟨"GET", none, none, none, none, none, none⟩ ⟨[], []⟩).body = .disabled ∧
    (handlerA false true
      ⟨"POST", none,
       some { session_id := .vStr "s1", site_id := .vStr "site",
              url := .vStr "https://x.com" }⟩).statusCode = 500 := by
  have h := c5_analytics_disabled (fun s => s) "default-salt" (fun _ => none) 0
    ⟨"GET", none, none, none, none, none, none⟩ ⟨[], []⟩ true
    ⟨"POST", none,
     some { session_id := .vStr "s1", site_id := .vStr "site",
            url := .vStr "https://x.com" }⟩
    { session_id := .vStr "s1", site_id := .vStr "site",
      url := .vStr "https://x.com" }
    (by decide) rfl rfl (by decide)
  exact ⟨h.1, h.2.1, h.2.2.2.2.2.2.1⟩

/-- Claim C6: a POST payload missing a required non-null field — path in
the session/page-view ingestor, session_id, site_id or url in the
metrics variants — receives a 400 whose message names the missing
required field(s), and no outbound store call occurs for that
request. -/
theorem c6_missing_field (digestHex : String → String) (salt : String)
    (geo : String → Option String) (now : Nat) (ev : Event) (db : DB)
    (raw : RawData) (envOk storeOk storeOkB : Bool) (evA : EventA)
    (d : MetricData) (evB : EventB) (dB : MetricDataB)
    (hm : ev.httpMethod = "POST") (hb : ev.body = some raw)
    (hp : truthyOpt (validateAndSanitizeData raw).path = none)
    (hmA : evA.httpMethod = "POST") (hbA : evA.body = some d)
    (hfA : (d.session_id.truthy && d.site_id.truthy && d.url.truthy) = false)
    (hmB : evB.httpMethod = "POST") (hbB : evB.body = some dB)
    (hfB : (dB.session_id.truthy && dB.site_id.truthy && dB.url.truthy) = false) :
    (handler digestHex salt geo now true ev db).statusCode = 400 ∧
    (handler digestHex salt geo now true ev db).body = .pathRequired ∧
    renderBody .pathRequired = "\x7b\"error\":\"Path is required\"\x7d" ∧
    (handler digestHex salt geo now true ev db).storeOps = [] ∧
    (handler digestHex salt geo now true ev db).db = db ∧
    (handler digestHex salt geo now true ev db).geoCalls = 0 ∧
    (handlerA envOk storeOk evA).statusCode = 400 ∧
    (handlerA envOk storeOk evA).body = .missingFields ∧
    renderBodyA .missingFields =
      "\x7b\"error\":\"Missing required fields: session_id, site_id, url\"\x7d" ∧
    (handlerA envOk storeOk evA).storeCalls = 0 ∧
    (handlerB storeOkB evB).statusCode = 400 ∧
    (handlerB storeOkB evB).body = .missingFields ∧
    (handlerB storeOkB evB).storeCalls = 0 := by
  have hrun : handler digestHex salt geo now true ev db =
      handlePost digestHex salt geo now ev db raw :=
    handler_post_eq _ _ _ _ _ _ _ hm hb
  have hpost : handlePost digestHex salt geo now ev db raw =
      ⟨400, corsHeaders, .pathRequired, db, [], 0⟩ := by
    simp only [handlePost, hp]
  have hA : handlerA envOk storeOk evA = ⟨400, jsonHeaders, .missingFields, 0⟩ := by
    simp [handlerA, hmA, hbA, hfA]
  have hB : handlerB storeOkB evB = ⟨400, jsonHeaders, .missingFields, 0⟩ := by
    simp [handlerB, hmB, hbB, hfB]
  rw [hrun, hpost, hA, hB]
  exact ⟨rfl, rfl, rfl, rfl, rfl, rfl, rfl, rfl, rfl, rfl, rfl, rfl, rfl⟩

/-- Witness for C6: a session/page-view beacon with a numeric path, a
variant A payload missing url, and a variant B payload missing
session_id are all rejected with 400 and zero store calls. -/
theorem c6_missing_field_witness :
    (handler (fun s => s) "default-salt" (fun _ => none) 0 true
      ⟨"POST", none, none, none, none, none,
       some { path := .vNum 5 }⟩ ⟨[], []⟩).statusCode = 400 ∧
    (handler (fun s => s) "default-salt" (fun _ => none) 0 true
      ⟨"POST", none, none, none, none, none,
       some { path := .vNum 5 }⟩ ⟨[], []⟩).storeOps = [] ∧
    (handlerA true true
      ⟨"POST", none,
       some { session_id := .vStr "s1", site_id := .vStr "site" }⟩).statusCode
      = 400 ∧
    (handlerB true
      ⟨"POST", some { site_id := .vStr "site",
                      url := .vStr "https://x.com" }⟩).statusCode = 400 := by
  have h := c6_missing_field (fun s => s) "default-salt" (fun _ => none) 0
    ⟨"POST", none, none, none, none, none, some { path := .vNum 5 }⟩ ⟨[], []⟩
    { path := .vNum 5 } true true true
    ⟨"POST", none, some { session_id := .vStr "s1", site_id := .vStr "site" }⟩
    { session_id := .vStr "s1", site_id := .vStr "site" }
    ⟨"POST", some { site_id := .vStr "site", url := .vStr "https://x.com" }⟩
    { site_id := .vStr "site", url := .vStr "https://x.com" }
    rfl rfl (by decide) rfl rfl (by decide) rfl rfl (by decide)
  exact ⟨h.1, h.2.2.2.1, h.2.2.2.2.2.2.1, h.2.2.2.2.2.2.2.2.2.2.1⟩

theorem handlePost_headers (digestHex : String → String) (salt : String)
    (geo : String → Option String) (now : Nat) (ev : Event) (db : DB)
    (raw : RawData) :
    (handlePost digestHex salt geo now ev db raw).headers = corsHeaders := by
  simp only [handlePost]
  repeat' split
  all_goals rfl

theorem handleGet_headers (now : Nat) (ev : Event) (db : DB) :
    (handleGet now ev db).headers = corsHeaders := rfl

theorem handler_headers (digestHex : String → String) (salt : String)
    (geo : String → Option String) (now : Nat) (configured : Bool)
    (ev : Event) (db : DB) :
    (handler digestHex salt geo now configured ev db).headers = corsHeaders := by
  unfold handler
  repeat' split
  all_goals first
  | rfl
  | apply handlePost_headers

theorem handlerA_headers (envOk storeOk : Bool) (ev : EventA) :
    (handlerA envOk storeOk ev).headers = jsonHeaders := by
  unfold handlerA
  repeat' split
  all_goals rfl

theorem handlerB_headers (storeOk : Bool) (ev : EventB) :
    (handlerB storeOk ev).headers = jsonHeaders := by
  unfold handlerB
  repeat' split
  all_goals rfl

/-- Counterexample for claim C9 as stated: an OPTIONS preflight sent to
the metrics ingestor receives 405 (not 200 with empty body), and its
response carries no Access-Control-Allow-Origin header. -/
theorem c9_counterexample :
    (handlerA true true ⟨"OPTIONS", none, none⟩).statusCode = 405 ∧
    (handlerA true true ⟨"OPTIONS", none, none⟩).headers.lookup
      "Access-Control-Allow-Origin" = none := by
  decide

/-- Claim C9 (amended): the session/page-view endpoint answers OPTIONS
with 200 and an empty body, answers any method other than OPTIONS, POST
or GET with 405 when configured, and attaches Content-Type:
application/json plus Access-Control-Allow-Origin: * to every response;
the metrics endpoints answer every non-POST method — including OPTIONS —
with 405 and attach only Content-Type: application/json, with no CORS
header. -/
theorem c9_methods_headers (digestHex : String → String) (salt : String)
    (geo : String → Option String) (now : Nat) (configured : Bool)
    (ev ev1 ev2 : Event) (db db1 db2 : DB)
    (envOk storeOk storeOkB : Bool) (evA evA2 : EventA) (evB evB2 : EventB)
    (h1 : ev1.httpMethod = "OPTIONS")
    (h2a : ev2.httpMethod ≠ "OPTIONS") (h2b : ev2.httpMethod ≠ "POST")
    (h2c : ev2.httpMethod ≠ "GET")
    (hA : evA.httpMethod ≠ "POST") (hB : evB.httpMethod ≠ "POST") :
    (handler digestHex salt geo now configured ev db).headers = corsHeaders ∧
    corsHeaders.lookup "Content-Type" = some "application/json" ∧
    corsHeaders.lookup "Access-Control-Allow-Origin" = some "*" ∧
    handler digestHex salt geo now configured ev1 db1 =
      ⟨200, corsHeaders, .empty, db1, [], 0⟩ ∧
    renderBody .empty = "" ∧
    handler digestHex salt geo now true ev2 db2 =
      ⟨405, corsHeaders, .methodNotAllowed, db2, [], 0⟩ ∧
    handlerA envOk storeOk evA = ⟨405, jsonHeaders, .methodNotAllowed, 0⟩ ∧
    handlerB storeOkB evB = ⟨405, jsonHeaders, .methodNotAllowed, 0⟩ ∧
    (handlerA envOk storeOk evA2).headers = jsonHeaders ∧
    (handlerB storeOkB evB2).headers = jsonHeaders ∧
    jsonHeaders.lookup "Access-Control-Allow-Origin" = none := by
  refine ⟨handler_headers _ _ _ _ _ _ _, rfl, rfl, ?_, rfl, ?_, ?_, ?_,
    handlerA_headers _ _ _, handlerB_headers _ _, rfl⟩
  · simp [handler, h1]
  · simp [handler, h2a, h2b, h2c]
  · simp [handlerA, hA]
  · simp [handlerB, hB]

/-- Witness for C9 (amended) at concrete requests: OPTIONS and DELETE on
the session/page-view endpoint, DELETE on both metrics endpoints. -/
theorem c9_methods_headers_witness :
    handler (fun s => s) "salt" (fun _ => none) 0 true
      ⟨"OPTIONS", none, none, none, none, none, none⟩ ⟨[], []⟩ =
      ⟨200, corsHeaders, .empty, ⟨[], []⟩, [], 0⟩ ∧
    handler (fun s => s) "salt" (fun _ => none) 0 true
      ⟨"DELETE", none, none, none, none, none, none⟩ ⟨[], []⟩ =
      ⟨405, corsHeaders, .methodNotAllowed, ⟨[], []⟩, [], 0⟩ ∧
    handlerA true true ⟨"DELETE", none, none⟩ =
      ⟨405, jsonHeaders, .methodNotAllowed, 0⟩ ∧
    handlerB true ⟨"DELETE", none⟩ =
      ⟨405, jsonHeaders, .methodNotAllowed, 0⟩ := by
  have h := c9_methods_headers (fun s => s) "salt" (fun _ => none) 0 true
    ⟨"OPTIONS", none, none, none, none, none, none⟩
    ⟨"OPTIONS", none, none, none, none, none, none⟩
    ⟨"DELETE", none, none, none, none, none, none⟩
    ⟨[], []⟩ ⟨[], []⟩ ⟨[], []⟩ true true true
    ⟨"DELETE", none, none⟩ ⟨"DELETE", none, none⟩ ⟨"DELETE", none⟩
    ⟨"DELETE", none⟩
    rfl (by decide) (by decide) (by decide) (by decide) (by decide)
  exact ⟨h.2.2.2.1, h.2.2.2.2.2.1, h.2.2.2.2.2.2.1, h.2.2.2.2.2.2.2.1⟩

theorem handlePost_pv_shape (digestHex : String → String) (salt : String)
    (geo : String → Option String) (now : Nat) (ev : Event) (db : DB)
    (raw : RawData) :
    (handlePost digestHex salt geo now ev db raw).db.page_views =
        db.page_views ∨
      ∃ pv, (handlePost digestHex salt geo now ev db raw).db.page_views =
        db.page_views ++ [pv] ∧ pv.is_bounce = 0 := by
  simp only [handlePost]
  repeat' split
  all_goals first
  | exact Or.inl rfl
  | exact Or.inr ⟨_, rfl, rfl⟩

theorem handler_pv_shape (digestHex : String → String) (salt : String)
    (geo : String → Option String) (now : Nat) (configured : Bool)
    (ev : Event) (db : DB) :
    (handler digestHex salt geo now configured ev db).db.page_views =
        db.page_views ∨
      ∃ pv, (handler digestHex salt geo now configured ev db).db.page_views =
        db.page_views ++ [pv] ∧ pv.is_bounce = 0 := by
  unfold handler
  repeat' split
  all_goals first
  | exact Or.inl rfl
  | apply handlePost_pv_shape

theorem bounceRatePct_zero (g : List PageViewRow)
    (hz : ∀ r ∈ g, r.is_bounce = 0) : bounceRatePct g = 0 := by
  have hsum : (g.map (fun r => ((r.is_bounce : ℚ)))).sum = 0 := by
    induction g with
    | nil => simp
    | cons a t ih =>
      have ha := hz a (List.mem_cons_self a t)
      have ht := ih (fun r hr => hz r (List.mem_cons_of_mem a hr))
      simp [ha, ht]
  simp [bounceRatePct, hsum, round2]

/-- Claim C10: every page-view row the session/page-view ingestor
inserts has is_bounce equal to 0 regardless of the client payload, and
over a store whose page-view rows all carry is_bounce 0 the pages report
computes a bounce rate of 0 for every result row. -/
theorem c10_bounce_zero (digestHex : String → String) (salt : String)
    (geo : String → Option String) (now : Nat) (configured : Bool)
    (ev : Event) (db db2 : DB) (now2 : Nat) (w : Int)
    (hz : ∀ r ∈ db2.page_views, r.is_bounce = 0) :
    (∀ r ∈ (handler digestHex salt geo now configured ev db).db.page_views,
      r ∈ db.page_views ∨ r.is_bounce = 0) ∧
    (∀ prow ∈ pagesReport db2 now2 w, prow.bounce_rate_percent = 0) := by
  constructor
  · intro r hr
    rcases handler_pv_shape digestHex salt geo now configured ev db with h | ⟨pv, h, hb⟩
    · rw [h] at hr
      exact Or.inl hr
    · rw [h] at hr
      rcases List.mem_append.mp hr with h2 | h2
      · exact Or.inl h2
      · rcases List.mem_singleton.mp h2 with rfl
        exact Or.inr hb
  · intro prow hmem
    simp only [pagesReport] at hmem
    rw [List.mem_insertionSort] at hmem
    rcases List.mem_map.mp hmem with ⟨k, _, rfl⟩
    apply bounceRatePct_zero
    intro r hr
    have hr2 := List.mem_filter.mp (List.mem_filter.mp hr).1
    exact hz r hr2.1

/-- Witness for C10: a concrete beacon inserts a page-view row with
is_bounce 0, and the pages report over that store yields bounce rate
0. -/
theorem c10_bounce_zero_witness :
    (∀ r ∈ (handler (fun s => s) "default-salt" (fun _ => some "TH") 1000 true
      ⟨"POST", some "1.2.3.4", none, none, none, none,
       some ⟨.vStr "/listing/42", .vUndef, .vUndef, .vStr "abc123", .vUndef,
             .vUndef, .vStr "https://phuket-property.com"⟩⟩
      ⟨[], []⟩).db.page_views,
      r ∈ ([] : List PageViewRow) ∨ r.is_bounce = 0) ∧
    (∀ prow ∈ pagesReport
      ⟨[], [⟨"/listing/42", "https://phuket-property.com", none, none,
             some "TH", none, none, some "abc123default-sa", 0, 1000⟩]⟩ 1000 30,
      prow.bounce_rate_percent = 0) :=
  c10_bounce_zero (fun s => s) "default-salt" (fun _ => some "TH") 1000 true
    ⟨"POST", some "1.2.3.4", none, none, none, none,
     some ⟨.vStr "/listing/42", .vUndef, .vUndef, .vStr "abc123", .vUndef,
           .vUndef, .vStr "https://phuket-property.com"⟩⟩
    ⟨[], []⟩
    ⟨[], [⟨"/listing/42", "https://phuket-property.com", none, none,
           some "TH", none, none, some "abc123default-sa", 0, 1000⟩]⟩
    1000 30 (by decide)

theorem computeDays_bounds (q : Option String) (w : Int)
    (h : computeDays q = some w) : 1 ≤ w ∧ w ≤ 365 := by
  unfold computeDays at h
  cases hp : parseIntJS (jsOrStr q "30") with
  | none => rw [hp] at h; cases h
  | some n =>
    rw [hp] at h
    injection h with h
    subst h
    refine ⟨le_min (le_max_right n 1) (by norm_num), min_le_right _ _⟩

theorem handler_get_eq (digestHex : String → String) (salt : String)
    (geo : String → Option String) (now : Nat) (ev : Event) (db : DB)
    (hm : ev.httpMethod = "GET") :
    handler digestHex salt geo now true ev db = handleGet now ev db := by
  simp [handler, hm]

theorem handleGet_eq (now : Nat) (ev : Event) (db : DB) (w : Int)
    (hd : computeDays ev.qDays = some w) :
    handleGet now ev db =
      ⟨200, corsHeaders,
       if jsOrStr ev.qType "pages" = "daily" then
         Body.dailyData (dailyReport db now w)
       else Body.pagesData (pagesReport db now w),
       db, [.aggregate (jsOrStr ev.qType "pages") (some w)], 0⟩ := by
  simp only [handleGet, hd]

theorem dailyReport_sorted (db : DB) (now : Nat) (w : Int) :
    List.Sorted dailyGE (dailyReport db now w) := by
  simp only [dailyReport]
  exact List.sorted_insertionSort dailyGE _

theorem pagesReport_sorted (db : DB) (now : Nat) (w : Int) :
    List.Sorted viewsGE (pagesReport db now w) := by
  simp only [pagesReport]
  exact List.sorted_insertionSort viewsGE _

theorem dailyReport_rows (db : DB) (now : Nat) (w : Int) (drow : DailyRow)
    (hmem : drow ∈ dailyReport db now w) :
    drow.total_views = ((db.page_views.filter (inWindow now w)).filter
      (fun r => dayOf r == drow.date)).length ∧
    drow.unique_sessions = uniqueSessions
      ((db.page_views.filter (inWindow now w)).filter
        (fun r => dayOf r == drow.date)) ∧
    ∃ r ∈ db.page_views, inWindow now w r = true ∧ dayOf r = drow.date := by
  simp only [dailyReport] at hmem
  rw [List.mem_insertionSort] at hmem
  rcases List.mem_map.mp hmem with ⟨d, hd, rfl⟩
  refine ⟨rfl, rfl, ?_⟩
  rcases List.mem_map.mp (List.mem_dedup.mp hd) with ⟨r, hr, rfl⟩
  rcases List.mem_filter.mp hr with ⟨hrdb, hrw⟩
  exact ⟨r, hrdb, hrw, rfl⟩

theorem pagesReport_rows (db : DB) (now : Nat) (w : Int) (prow : PagesRow)
    (hmem : prow ∈ pagesReport db now w) :
    prow.views = (pagesGroup (db.page_views.filter (inWindow now w))
      (prow.path, prow.site_url)).length ∧
    prow.unique_sessions = uniqueSessions
      (pagesGroup (db.page_views.filter (inWindow now w))
        (prow.path, prow.site_url)) ∧
    prow.bounce_rate_percent = bounceRatePct
      (pagesGroup (db.page_views.filter (inWindow now w))
        (prow.path, prow.site_url)) ∧
    ∃ r ∈ db.page_views, inWindow now w r = true ∧
      r.path = prow.path ∧ r.site_url = prow.site_url := by
  simp only [pagesReport] at hmem
  rw [List.mem_insertionSort] at hmem
  rcases List.mem_map.mp hmem with ⟨k, hk, rfl⟩
  obtain ⟨k1, k2⟩ := k
  refine ⟨rfl, rfl, rfl, ?_⟩
  rcases List.mem_map.mp (List.mem_dedup.mp hk) with ⟨r, hr, heq⟩
  rcases List.mem_filter.mp hr with ⟨hrdb, hrw⟩
  rcases Prod.mk.injEq .. ▸ heq with ⟨h1, h2⟩
  exact ⟨r, hrdb, hrw, h1, h2⟩

/-- Counterexample for claim C8 as stated: a GET request with
`days = "x"` is not clamped into 1–365 — `parseInt` yields NaN (modelled
`none`), `Math.max`/`Math.min` propagate it, and the aggregation query is
executed with a NaN window parameter. -/
theorem c8_counterexample :
    computeDays (some "x") = none ∧
    (handler (fun s => s) "salt" (fun _ => none) 0 true
      ⟨"GET", none, none, none, some "x", none, none⟩ ⟨[], []⟩).storeOps =
      [.aggregate "pages" none] ∧
    ¬∃ w : Int,
      (handler (fun s => s) "salt" (fun _ => none) 0 true
        ⟨"GET", none, none, none, some "x", none, none⟩ ⟨[], []⟩).storeOps =
        [.aggregate "pages" (some w)] := by
  refine ⟨rfl, rfl, ?_⟩
  rintro ⟨w, hw⟩
  rw [show (handler (fun s => s) "salt" (fun _ => none) 0 true
    ⟨"GET", none, none, none, some "x", none, none⟩ ⟨[], []⟩).storeOps =
    [StoreOp.aggregate "pages" none] from rfl] at hw
  simp at hw

/-- Claim C8 (amended): for every GET request whose days parameter is
absent or parses to a number, the lookback window is clamped to 1–365
(days=400 becomes 365) and the single aggregating query returns per-day
total/unique-session counts ordered most-recent-first when type is
daily, or per-path view/unique-session/bounce-rate statistics ordered by
views descending otherwise; a non-numeric days parameter escapes the
clamp as NaN. -/
theorem c8_get_report (digestHex : String → String) (salt : String)
    (geo : String → Option String) (now : Nat) (ev : Event) (db : DB)
    (w : Int) (hm : ev.httpMethod = "GET")
    (hd : computeDays ev.qDays = some w) :
    (1 ≤ w ∧ w ≤ 365) ∧
    computeDays (some "400") = some 365 ∧
    (handler digestHex salt geo now true ev db).statusCode = 200 ∧
    (handler digestHex salt geo now true ev db).storeOps =
      [.aggregate (jsOrStr ev.qType "pages") (some w)] ∧
    (jsOrStr ev.qType "pages" = "daily" →
      (handler digestHex salt geo now true ev db).body =
        .dailyData (dailyReport db now w)) ∧
    (jsOrStr ev.qType "pages" ≠ "daily" →
      (handler digestHex salt geo now true ev db).body =
        .pagesData (pagesReport db now w)) ∧
    List.Sorted dailyGE (dailyReport db now w) ∧
    (∀ drow ∈ dailyReport db now w,
      drow.total_views = ((db.page_views.filter (inWindow now w)).filter
        (fun r => dayOf r == drow.date)).length ∧
      drow.unique_sessions = uniqueSessions
        ((db.page_views.filter (inWindow now w)).filter
          (fun r => dayOf r == drow.date)) ∧
      ∃ r ∈ db.page_views, inWindow now w r = true ∧ dayOf r = drow.date) ∧
    List.Sorted viewsGE (pagesReport db now w) ∧
    (∀ prow ∈ pagesReport db now w,
      prow.views = (pagesGroup (db.page_views.filter (inWindow now w))
        (prow.path, prow.site_url)).length ∧
      prow.unique_sessions = uniqueSessions
        (pagesGroup (db.page_views.filter (inWindow now w))
          (prow.path, prow.site_url)) ∧
      ∃ r ∈ db.page_views, inWindow now w r = true ∧
        r.path = prow.path ∧ r.site_url = prow.site_url) := by
  have hrun : handler digestHex salt geo now true ev db = handleGet now ev db :=
    handler_get_eq _ _ _ _ _ _ hm
  have hget := handleGet_eq now ev db w hd
  refine ⟨computeDays_bounds _ _ hd, rfl, ?_, ?_, ?_, ?_,
    dailyReport_sorted db now w,
    fun drow hmem => dailyReport_rows db now w drow hmem,
    pagesReport_sorted db now w,
    fun prow hmem => ⟨(pagesReport_rows db now w prow hmem).1,
      (pagesReport_rows db now w prow hmem).2.1,
      (pagesReport_rows db now w prow hmem).2.2.2⟩⟩
  · rw [hrun, hget]
  · rw [hrun, hget]
  · intro hq
    rw [hrun, hget]
    simp only [hq, if_pos]
  · intro hq
    rw [hrun, hget]
    simp only [if_neg hq]

/-- Witness for C8 (amended) at `?type=daily&days=400` over a store with
page views on two different days: the window clamps to 365 and the daily
report lists the more recent day first. -/
theorem c8_get_report_witness :
    (1 ≤ (365 : Int) ∧ (365 : Int) ≤ 365) ∧
    (handler (fun s => s) "salt" (fun _ => none) 1000000 true
      ⟨"GET", none, none, none, some "400", some "daily", none⟩
      ⟨[], [⟨"/a", "s", none, none, none, none, none, some "h1", 0, 1000000⟩,
            ⟨"/b", "s", none, none, none, none, none, some "h2", 0, 900000⟩]⟩).body =
      .dailyData (dailyReport
        ⟨[], [⟨"/a", "s", none, none, none, none, none, some "h1", 0, 1000000⟩,
              ⟨"/b", "s", none, none, none, none, none, some "h2", 0, 900000⟩]⟩
        1000000 365) ∧
    dailyReport
      ⟨[], [⟨"/a", "s", none, none, none, none, none, some "h1", 0, 1000000⟩,
            ⟨"/b", "s", none, none, none, none, none, some "h2", 0, 900000⟩]⟩
      1000000 365 = [⟨11, 1, 1⟩, ⟨10, 1, 1⟩] ∧
    List.Sorted dailyGE (dailyReport
      ⟨[], [⟨"/a", "s", none, none, none, none, none, some "h1", 0, 1000000⟩,
            ⟨"/b", "s", none, none, none, none, none, some "h2", 0, 900000⟩]⟩
      1000000 365) := by
  have h := c8_get_report (fun s => s) "salt" (fun _ => none) 1000000
    ⟨"GET", none, none, none, some "400", some "daily", none⟩
    ⟨[], [⟨"/a", "s", none, none, none, none, none, some "h1", 0, 1000000⟩,
          ⟨"/b", "s", none, none, none, none, none, some "h2", 0, 900000⟩]⟩
    365 rfl (by decide)
  exact ⟨h.1, h.2.2.2.2.1 rfl, by decide, h.2.2.2.2.2.2.1⟩
